import Mathlib

/-!
# PinPilot firmware (`firmware/src/main.cpp`) — shallow embedding

The program is a single Arduino-style sketch: `setup()` configures optional
pins, blocks until WiFi associates, and points the MQTT client at the broker;
`loop()` reconnects MQTT when needed, services the client poll, and publishes
a heartbeat when more than 5000 ms have elapsed on the 32-bit millisecond
counter.

External collaborators (WiFi stack, PubSubClient) are modelled by input
traces: a list of boolean poll results for `WiFi.status() != WL_CONNECTED`,
and a list of boolean outcomes for `mqtt.connect(...)` attempts.  Blocking
loops consume such a trace and return `none` when the (finite prefix of the)
trace is exhausted without success — modelling non-termination on traces that
never succeed.  Observable actions (publishes, delays, pin writes, serial
diagnostics) are recorded as an `Event` list.  The 32-bit `millis()` counter
is modelled as true time modulo `2^32`, with unsigned subtraction `sub32`.
-/

/-- `2^32`, the modulus of the unsigned 32-bit millisecond counter. -/
def U32 : Nat := 4294967296

/-- `#define DEVICE_NAME "pinpilot_device"` (the `#ifndef` default). -/
def DEVICE_NAME : String := "pinpilot_device"

/-- `const char* WIFI_SSID = "YOUR_WIFI";` -/
def WIFI_SSID : String := "YOUR_WIFI"

/-- `const char* WIFI_PASS = "YOUR_PASS";` -/
def WIFI_PASS : String := "YOUR_PASS"

/-- `const char* MQTT_HOST = "192.168.1.10";` -/
def MQTT_HOST : String := "192.168.1.10"

/-- `const int MQTT_PORT = 1883;` -/
def MQTT_PORT : Nat := 1883

/-- Observable actions of the sketch, in program order. -/
inductive Event where
  | serialBegin (baud : Nat)
  | serialPrint (s : String)
  | serialPrintln (s : String)
  | serialPrintStateCode
  | delayMs (ms : Nat)
  | pinModeOutput (pin : Nat)
  | digitalWrite (pin : Nat) (high : Bool)
  | wifiModeSTA
  | wifiBegin (ssid pass : String)
  | setServer (host : String) (port : Nat)
  | connectAttempt (clientId : String) (ok : Bool)
  | publish (topic payload : String)
  | pollLoop
  deriving DecidableEq

/-- The 32-bit millisecond counter: `millis()` at true time `t` (in ms). -/
def millis (t : Nat) : Nat := t % U32

/-- Unsigned 32-bit subtraction `a - b` (wrapping), as used by
`millis() - last` on `uint32_t` values. -/
def sub32 (a b : Nat) : Nat := (a % U32 + (U32 - b % U32)) % U32

/-- The body of `connectWiFi`'s `while (WiFi.status() != WL_CONNECTED)` loop.
Each list element is one poll of the link: `true` means the status poll
reports `WL_CONNECTED`.  `none` models the loop never exiting within the
given trace prefix.  Each failed poll does `delay(300); Serial.print(".")`. -/
def connectWiFiPoll : List Bool → Option (List Event)
  | [] => none
  | st :: rest =>
    if st then some []
    else
      match connectWiFiPoll rest with
      | none => none
      | some evs => some (Event.delayMs 300 :: Event.serialPrint "." :: evs)

/-- Events of one failed status poll inside `connectWiFi`'s wait loop:
`delay(300); Serial.print(".");`. -/
def wifiWaitEvents : List Event := [Event.delayMs 300, Event.serialPrint "."]

/-- `static void connectWiFi()`: set STA mode, begin association, poll until
connected, then print the banner. -/
def connectWiFi (statuses : List Bool) : Option (List Event) :=
  match connectWiFiPoll statuses with
  | none => none
  | some evs =>
    some (Event.wifiModeSTA :: Event.wifiBegin WIFI_SSID WIFI_PASS ::
      (evs ++ [Event.serialPrintln "\nWiFi connected"]))

/-- Events of one failed `mqtt.connect` attempt inside `mqttReconnect`:
the prompt, the attempt, the diagnostic prints and the `delay(2000)`. -/
def reconnectFailEvents : List Event :=
  [Event.serialPrint "MQTT connecting...", Event.connectAttempt DEVICE_NAME false,
   Event.serialPrint "failed rc=", Event.serialPrintStateCode,
   Event.serialPrintln " retry in 2s", Event.delayMs 2000]

/-- Events of the successful `mqtt.connect` attempt inside `mqttReconnect`:
the prompt, the attempt, the banner and the single `"online"` status publish. -/
def reconnectSuccessEvents : List Event :=
  [Event.serialPrint "MQTT connecting...", Event.connectAttempt DEVICE_NAME true,
   Event.serialPrintln "connected", Event.publish "pinpilot/status" "online"]

/-- `static void mqttReconnect()`: `while (!mqtt.connected())`, try
`mqtt.connect(DEVICE_NAME)`; on success publish `"online"` once (the next
check of the loop condition then exits); on failure print the diagnostic and
`delay(2000)`.  `connected` is the value of `mqtt.connected()` at entry;
`attempts` is the trace of outcomes of successive `mqtt.connect` calls.
`none` models the loop never exiting within the given trace prefix. -/
def mqttReconnect (connected : Bool) (attempts : List Bool) : Option (List Event) :=
  if connected then some []
  else
    match attempts with
    | [] => none
    | ok :: rest =>
      if ok then some reconnectSuccessEvents
      else
        match mqttReconnect false rest with
        | none => none
        | some evs => some (reconnectFailEvents ++ evs)

/-- The heartbeat block at the end of `loop()`:
`if (millis() - last > 5000) { last = millis(); mqtt.publish("pinpilot/heartbeat", DEVICE_NAME); }`.
`t` is true time in ms, `last` the stored `static uint32_t last`.
Returns the emitted events and the new value of `last`. -/
def heartbeatStep (t last : Nat) : List Event × Nat :=
  if 5000 < sub32 (millis t) last then
    ([Event.publish "pinpilot/heartbeat" DEVICE_NAME], millis t)
  else ([], last)

/-- Configuration of the compile-time optional pins from `pinmap.h`:
`EPAPER_SPI_2P13_CS` and `WS2812_DIN` are `#define`d or absent. -/
structure PinConfig where
  epaperCS : Option Nat
  ws2812Din : Option Nat
  deriving DecidableEq

/-- One `#ifdef`-guarded pin-initialization step of `setup()`:
`pinMode(PIN, OUTPUT); digitalWrite(PIN, idleHigh);` when the identifier is
defined, and nothing at all when it is absent. -/
def initPin (p : Option Nat) (idleHigh : Bool) : List Event :=
  match p with
  | some pin => [Event.pinModeOutput pin, Event.digitalWrite pin idleHigh]
  | none => []

/-- `void setup()`: serial init, optional pin setup (`EPAPER_SPI_2P13_CS`
idles HIGH, `WS2812_DIN` idles LOW), blocking WiFi association, then
`mqtt.setServer(MQTT_HOST, MQTT_PORT)`. -/
def setup (cfg : PinConfig) (wifiStatuses : List Bool) : Option (List Event) :=
  match connectWiFi wifiStatuses with
  | none => none
  | some wevs =>
    some ([Event.serialBegin 115200, Event.delayMs 200]
      ++ initPin cfg.epaperCS true
      ++ initPin cfg.ws2812Din false
      ++ wevs
      ++ [Event.setServer MQTT_HOST MQTT_PORT])

/-- One iteration of `void loop()`: if `mqtt.connected()` is false at entry,
run `mqttReconnect` (consuming `attempts`); then `mqtt.loop()`; then the
heartbeat block.  `t` is true time in ms at this iteration, `last` the stored
heartbeat timestamp.  `none` models being stuck forever inside reconnect. -/
def loopIter (connected : Bool) (attempts : List Bool) (t last : Nat) :
    Option (List Event × Nat) :=
  match (if connected then some [] else mqttReconnect false attempts) with
  | none => none
  | some revs =>
    let hb := heartbeatStep t last
    some (revs ++ Event.pollLoop :: hb.fst, hb.snd)

/-- The external inputs of one `loop()` iteration: the `mqtt.connected()`
reading at entry, the trace of connect-attempt outcomes available to a
reconnect, and the true time in ms. -/
structure IterInput where
  connected : Bool
  attempts : List Bool
  t : Nat
  deriving DecidableEq

/-- A finite run of `loop()` iterations, threading the `static uint32_t last`
heartbeat timestamp and concatenating all emitted events. -/
def runLoop (last : Nat) : List IterInput → Option (List Event × Nat)
  | [] => some ([], last)
  | i :: rest =>
    match loopIter i.connected i.attempts i.t last with
    | none => none
    | some (evs, last1) =>
      match runLoop last1 rest with
      | none => none
      | some (evs2, last2) => some (evs ++ evs2, last2)

/-- Heartbeat-only abstraction of a run: from the stored timestamp and the
list of iteration times, the list of (true) times at which a heartbeat is
published, and the final timestamp.  Follows `heartbeatStep` exactly. -/
def hbRun (last : Nat) : List Nat → List Nat × Nat
  | [] => ([], last)
  | t :: rest =>
    match heartbeatStep t last with
    | (hevs, last2) =>
      match hbRun last2 rest with
      | (ts, last3) => ((if hevs.isEmpty then [] else [t]) ++ ts, last3)

/-- Is this event a publish to the given topic? -/
def isPublishTo (topic : String) : Event → Bool
  | Event.publish tp _ => tp == topic
  | _ => false

/-- Number of publishes to a given topic in an event list. -/
def countTopic (topic : String) (evs : List Event) : Nat :=
  (evs.filter (isPublishTo topic)).length

/-- Is this event the `mqtt.loop()` keepalive poll? -/
def isPoll : Event → Bool
  | Event.pollLoop => true
  | _ => false

/-- Is this event a successful `mqtt.connect` attempt? -/
def isSuccessfulConnect : Event → Bool
  | Event.connectAttempt _ ok => ok
  | _ => false

/-- Is this event a pin operation (`pinMode` or `digitalWrite`)? -/
def isPinOp : Event → Bool
  | Event.pinModeOutput _ => true
  | Event.digitalWrite _ _ => true
  | _ => false

/-- Does this event, if it is a connect attempt, use the device identifier
as the client ID?  Non-attempt events pass vacuously. -/
def clientIdOk : Event → Bool
  | Event.connectAttempt cid _ => cid == DEVICE_NAME
  | _ => true

/-- Every publish the program can emit is one of the two fixed
topic/payload pairs; non-publish events are unconstrained. -/
def allowedPublish : Event → Bool
  | Event.publish tp p =>
    (tp == "pinpilot/status" && p == "online") ||
    (tp == "pinpilot/heartbeat" && p == DEVICE_NAME)
  | _ => true

/-! ## Helper lemmas -/

theorem countTopic_append (tp : String) (xs ys : List Event) :
    countTopic tp (xs ++ ys) = countTopic tp xs + countTopic tp ys := by
  simp [countTopic, List.filter_append]

theorem sub32_millis_eq (t0 t1 : Nat) (h : t0 ≤ t1) :
    sub32 (millis t1) (millis t0) = (t1 - t0) % U32 := by
  simp only [sub32, millis, U32] at *
  omega

theorem elapsed_gt_of_sub32_gt (t0 t1 : Nat) (h : t0 ≤ t1)
    (h2 : 5000 < sub32 (millis t1) (millis t0)) : 5000 < t1 - t0 := by
  rw [sub32_millis_eq t0 t1 h] at h2
  exact lt_of_lt_of_le h2 (Nat.mod_le _ _)

theorem heartbeatStep_pos (t last : Nat) (h : 5000 < sub32 (millis t) last) :
    heartbeatStep t last = ([Event.publish "pinpilot/heartbeat" DEVICE_NAME], millis t) := by
  simp [heartbeatStep, h]

theorem heartbeatStep_neg (t last : Nat) (h : ¬ 5000 < sub32 (millis t) last) :
    heartbeatStep t last = ([], last) := by
  simp [heartbeatStep, h]

theorem mqttReconnect_events (c : Bool) (a : List Bool) (evs : List Event)
    (h : mqttReconnect c a = some evs) :
    countTopic "pinpilot/heartbeat" evs = 0 ∧
    (evs.filter isPoll).length = 0 ∧
    (∀ e ∈ evs, allowedPublish e = true) ∧
    countTopic "pinpilot/status" evs = (evs.filter isSuccessfulConnect).length := by
  induction a generalizing c evs with
  | nil =>
    cases c with
    | false => simp [mqttReconnect] at h
    | true =>
      simp [mqttReconnect] at h
      subst h
      simp [countTopic]
  | cons ok rest ih =>
    cases c with
    | true =>
      simp [mqttReconnect] at h
      subst h
      simp [countTopic]
    | false =>
      rw [mqttReconnect] at h
      simp only [if_neg (by simp : ¬ (false = true))] at h
      cases ok with
      | true =>
        simp at h
        subst h
        refine ⟨by decide, by decide, by decide, by decide⟩
      | false =>
        simp only [Bool.false_eq_true, if_false] at h
        cases hrec : mqttReconnect false rest with
        | none => rw [hrec] at h; exact absurd h (by simp)
        | some evs' =>
          rw [hrec] at h
          simp at h
          subst h
          obtain ⟨h1, h2, h3, h4⟩ := ih false evs' hrec
          refine ⟨?_, ?_, ?_, ?_⟩
          · rw [countTopic_append, h1]; decide
          · simp only [List.filter_append, List.length_append, h2]; decide
          · intro e he
            rcases List.mem_append.mp he with hl | hr
            · exact (by decide : ∀ x ∈ reconnectFailEvents, allowedPublish x = true) e hl
            · exact h3 e hr
          · rw [countTopic_append, h4]
            simp only [List.filter_append, List.length_append]
            have e1 : countTopic "pinpilot/status" reconnectFailEvents = 0 := by decide
            have e2 : (reconnectFailEvents.filter isSuccessfulConnect).length = 0 := by decide
            omega

theorem loopIter_eq_some (c : Bool) (a : List Bool) (t last : Nat)
    (evs : List Event) (last' : Nat)
    (h : loopIter c a t last = some (evs, last')) :
    ∃ revs, (if c then some [] else mqttReconnect false a) = some revs ∧
      countTopic "pinpilot/heartbeat" revs = 0 ∧
      (revs.filter isPoll).length = 0 ∧
      evs = revs ++ Event.pollLoop :: (heartbeatStep t last).fst ∧
      last' = (heartbeatStep t last).snd := by
  rw [loopIter] at h
  cases hrec : (if c then some ([] : List Event) else mqttReconnect false a) with
  | none => rw [hrec] at h; exact absurd h (by simp)
  | some revs =>
    rw [hrec] at h
    simp only [Option.some.injEq, Prod.mk.injEq] at h
    refine ⟨revs, rfl, ?_, ?_, h.1.symm, h.2.symm⟩ <;>
    · cases c with
      | true => simp at hrec; subst hrec; decide
      | false =>
        simp only [Bool.false_eq_true, if_false] at hrec
        first
        | exact (mqttReconnect_events false a revs hrec).1
        | exact (mqttReconnect_events false a revs hrec).2.1

/-! ## Claim theorems -/

/-- C10: the heartbeat's elapsed-time test uses the unsigned 32-bit
difference `millis() - last` (i.e. subtraction modulo `2^32`), and for every
pair of true times `t0 ≤ t1` with `t1 - t0 < 2^32` this difference of the
wrapped counter values equals the true elapsed time, so heartbeat scheduling
stays correct across wraparound of the 32-bit millisecond counter. -/
theorem sub32_recovers_true_elapsed (t0 t1 : Nat) (h1 : t0 ≤ t1)
    (h2 : t1 - t0 < U32) : sub32 (millis t1) (millis t0) = t1 - t0 := by
  simp only [sub32, millis, U32] at *
  omega

/-- Witness for C10 at a concrete wraparound pair: the counter has wrapped
between `t0 = 2^32 - 296` and `t1 = 2^32 + 704`, yet the unsigned difference
is the true elapsed 1000 ms. -/
theorem sub32_recovers_true_elapsed_witness :
    4294967000 ≤ 4294968000 ∧ 4294968000 - 4294967000 < U32 ∧
    sub32 (millis 4294968000) (millis 4294967000) = 4294968000 - 4294967000 :=
  ⟨by decide, by decide,
   sub32_recovers_true_elapsed 4294967000 4294968000 (by decide) (by decide)⟩

/-- Counterexample to C1 as stated: at elapsed time exactly 5000 ms
(`last = 0`, `millis() = 5000`) the loop iteration publishes no heartbeat and
does not reset the timestamp, because the code tests `millis() - last > 5000`
strictly, not `>= 5000`. -/
theorem loop_no_heartbeat_at_exactly_5000 :
    sub32 (millis 5000) 0 = 5000 ∧
    loopIter true [] 5000 0 = some ([Event.pollLoop], 0) := by
  decide

/-- C1 (amended): in every iteration of the main loop in which the elapsed
time since `last` on the 32-bit counter is strictly greater than 5000 ms,
exactly one heartbeat message carrying the device identifier is published and
the timestamp is reset to the current millisecond counter. -/
theorem loop_heartbeat_when_gt_5000 (c : Bool) (a : List Bool) (t last : Nat)
    (evs : List Event) (last' : Nat)
    (h : loopIter c a t last = some (evs, last'))
    (hgt : 5000 < sub32 (millis t) last) :
    countTopic "pinpilot/heartbeat" evs = 1 ∧ last' = millis t := by
  obtain ⟨revs, _, hcnt, _, hevs, hlast⟩ := loopIter_eq_some c a t last evs last' h
  rw [heartbeatStep_pos t last hgt] at hevs hlast
  subst hevs
  refine ⟨?_, hlast⟩
  rw [countTopic_append, hcnt]
  simp [countTopic, isPublishTo, List.filter]

/-- Witness for C1 (amended) at `t = 6000`, `last = 0`, connected. -/
theorem loop_heartbeat_when_gt_5000_witness :
    loopIter true [] 6000 0 =
      some ([Event.pollLoop, Event.publish "pinpilot/heartbeat" DEVICE_NAME], 6000) ∧
    5000 < sub32 (millis 6000) 0 ∧
    (countTopic "pinpilot/heartbeat"
        [Event.pollLoop, Event.publish "pinpilot/heartbeat" DEVICE_NAME] = 1 ∧
      (6000 : Nat) = millis 6000) :=
  ⟨by decide, by decide,
   loop_heartbeat_when_gt_5000 true [] 6000 0
     [Event.pollLoop, Event.publish "pinpilot/heartbeat" DEVICE_NAME] 6000
     (by decide) (by decide)⟩

/-- C5: in every loop iteration where the elapsed time since the last
heartbeat is strictly less than 5000 ms, no heartbeat publish occurs and the
stored timestamp is unchanged. -/
theorem loop_no_heartbeat_below_5000 (c : Bool) (a : List Bool) (t last : Nat)
    (evs : List Event) (last' : Nat)
    (h : loopIter c a t last = some (evs, last'))
    (hlt : sub32 (millis t) last < 5000) :
    countTopic "pinpilot/heartbeat" evs = 0 ∧ last' = last := by
  obtain ⟨revs, _, hcnt, _, hevs, hlast⟩ := loopIter_eq_some c a t last evs last' h
  rw [heartbeatStep_neg t last (by omega)] at hevs hlast
  subst hevs
  refine ⟨?_, hlast⟩
  rw [countTopic_append, hcnt]
  simp [countTopic, isPublishTo, List.filter]

/-- Witness for C5 at `t = 3000`, `last = 0`, connected. -/
theorem loop_no_heartbeat_below_5000_witness :
    loopIter true [] 3000 0 = some ([Event.pollLoop], 0) ∧
    sub32 (millis 3000) 0 < 5000 ∧
    (countTopic "pinpilot/heartbeat" [Event.pollLoop] = 0 ∧ (0 : Nat) = 0) :=
  ⟨by decide, by decide,
   loop_no_heartbeat_below_5000 true [] 3000 0 [Event.pollLoop] 0
     (by decide) (by decide)⟩

/-- C8: the reconnect operation does not modify the heartbeat timestamp: the
new value of `last` after a loop iteration depends only on the time and the
old value (it equals `heartbeatStep`'s result), never on the connection
status or the reconnect attempt trace; in particular a disconnected iteration
that reconnects leaves `last` exactly as a connected iteration would. -/
theorem reconnect_preserves_heartbeat_timer :
    (∀ (c : Bool) (a : List Bool) (t last : Nat) (evs : List Event) (last' : Nat),
      loopIter c a t last = some (evs, last') →
        last' = (heartbeatStep t last).snd) ∧
    (∀ (a : List Bool) (t last : Nat) (evs1 : List Event) (last1 : Nat)
        (evs2 : List Event) (last2 : Nat),
      loopIter false a t last = some (evs1, last1) →
      loopIter true [] t last = some (evs2, last2) → last1 = last2) := by
  have hfst : ∀ (c : Bool) (a : List Bool) (t last : Nat) (evs : List Event)
      (last' : Nat), loopIter c a t last = some (evs, last') →
        last' = (heartbeatStep t last).snd := by
    intro c a t last evs last' h
    obtain ⟨_, _, _, _, _, hlast⟩ := loopIter_eq_some c a t last evs last' h
    exact hlast
  refine ⟨hfst, ?_⟩
  intro a t last evs1 last1 evs2 last2 h1 h2
  rw [hfst false a t last evs1 last1 h1, hfst true [] t last evs2 last2 h2]

/-- Witness for C8: a disconnected iteration at `t = 100` whose reconnect
succeeds immediately, and a connected iteration at the same time, both leave
`last = 0` untouched. -/
theorem reconnect_preserves_heartbeat_timer_witness :
    loopIter false [true] 100 0 =
      some (reconnectSuccessEvents ++ [Event.pollLoop], 0) ∧
    loopIter true [] 100 0 = some ([Event.pollLoop], 0) ∧
    (0 : Nat) = (heartbeatStep 100 0).snd ∧ (0 : Nat) = 0 :=
  ⟨by decide, by decide,
   reconnect_preserves_heartbeat_timer.1 false [true] 100 0
     (reconnectSuccessEvents ++ [Event.pollLoop]) 0 (by decide),
   reconnect_preserves_heartbeat_timer.2 [true] 100 0
     (reconnectSuccessEvents ++ [Event.pollLoop]) 0 [Event.pollLoop] 0
     (by decide) (by decide)⟩

theorem mqttReconnect_replicate (k : Nat) (rest : List Bool) :
    mqttReconnect false (List.replicate k false ++ true :: rest) =
      some ((List.replicate k reconnectFailEvents).flatten ++ reconnectSuccessEvents) := by
  induction k with
  | zero => simp [mqttReconnect]
  | succ n ih =>
    rw [List.replicate_succ, List.cons_append, mqttReconnect]
    simp only [Bool.false_eq_true, if_false, ih]
    simp [List.replicate_succ, List.append_assoc]

theorem mqttReconnect_all_false (a : List Bool) (h : ∀ b ∈ a, b = false) :
    mqttReconnect false a = none := by
  induction a with
  | nil => simp [mqttReconnect]
  | cons b rest ih =>
    have hb : b = false := h b (by simp)
    subst hb
    rw [mqttReconnect]
    simp [ih fun x hx => h x (List.mem_cons_of_mem _ hx)]

theorem connectWiFiPoll_replicate (k : Nat) (rest : List Bool) :
    connectWiFiPoll (List.replicate k false ++ true :: rest) =
      some (List.replicate k wifiWaitEvents).flatten := by
  induction k with
  | zero => simp [connectWiFiPoll]
  | succ n ih =>
    rw [List.replicate_succ, List.cons_append, connectWiFiPoll]
    simp only [Bool.false_eq_true, if_false, ih]
    simp [List.replicate_succ, wifiWaitEvents]

theorem connectWiFiPoll_all_false (s : List Bool) (h : ∀ b ∈ s, b = false) :
    connectWiFiPoll s = none := by
  induction s with
  | nil => simp [connectWiFiPoll]
  | cons b rest ih =>
    have hb : b = false := h b (by simp)
    subst hb
    rw [connectWiFiPoll]
    simp [ih fun x hx => h x (List.mem_cons_of_mem _ hx)]

/-- C2: `mqttReconnect` loops over connect attempts made with the device
identifier as client ID; after `k` failures — each waiting 2000 ms — a
successful attempt publishes exactly one `"online"` status message and the
loop returns at once (the remaining trace is unused); a trace of failures
only, of any length, never returns (no maximum retry count). -/
theorem mqttReconnect_spec :
    (∀ (k : Nat) (rest : List Bool),
      mqttReconnect false (List.replicate k false ++ true :: rest) =
        some ((List.replicate k reconnectFailEvents).flatten ++ reconnectSuccessEvents)) ∧
    (∀ a : List Bool, (∀ b ∈ a, b = false) → mqttReconnect false a = none) ∧
    countTopic "pinpilot/status" reconnectSuccessEvents = 1 ∧
    countTopic "pinpilot/status" reconnectFailEvents = 0 ∧
    (reconnectFailEvents.filter (fun e => e = Event.delayMs 2000)).length = 1 ∧
    (∀ e ∈ reconnectSuccessEvents ++ reconnectFailEvents, clientIdOk e = true) := by
  refine ⟨mqttReconnect_replicate, mqttReconnect_all_false, by decide, by decide,
    by decide, by decide⟩

/-- Witness for C2: one failed attempt then a successful one yields the fail
events (with their 2000 ms delay) followed by the success events; two failed
attempts exhaust the trace without returning. -/
theorem mqttReconnect_spec_witness :
    mqttReconnect false (List.replicate 1 false ++ true :: []) =
      some ((List.replicate 1 reconnectFailEvents).flatten ++ reconnectSuccessEvents) ∧
    ((∀ b ∈ [false, false], b = false) ∧
      mqttReconnect false [false, false] = none) :=
  ⟨mqttReconnect_spec.1 1 [],
   by decide, mqttReconnect_spec.2.1 [false, false] (by decide)⟩

/-- C7: the WiFi-association wait loop polls the link status, doing
`delay(300)` per failed poll, and returns exactly at the first poll that
reports connected; it has no timeout, so on a status trace that never
reports connected (all polls false, any length) neither the wait loop nor
`connectWiFi` ever returns. -/
theorem connectWiFi_spec :
    (∀ s : List Bool, (∀ b ∈ s, b = false) → connectWiFiPoll s = none) ∧
    (∀ s : List Bool, (∀ b ∈ s, b = false) → connectWiFi s = none) ∧
    (∀ (k : Nat) (rest : List Bool),
      connectWiFiPoll (List.replicate k false ++ true :: rest) =
        some (List.replicate k wifiWaitEvents).flatten) := by
  refine ⟨connectWiFiPoll_all_false, ?_, connectWiFiPoll_replicate⟩
  intro s hs
  rw [connectWiFi, connectWiFiPoll_all_false s hs]

/-- Witness for C7: two failed polls exhaust the trace without returning; one
failed poll followed by a connected poll returns after a single 300 ms wait. -/
theorem connectWiFi_spec_witness :
    ((∀ b ∈ [false, false], b = false) ∧ connectWiFiPoll [false, false] = none) ∧
    connectWiFi [false, false] = none ∧
    connectWiFiPoll (List.replicate 1 false ++ true :: []) =
      some (List.replicate 1 wifiWaitEvents).flatten :=
  ⟨⟨by decide, connectWiFi_spec.1 [false, false] (by decide)⟩,
   connectWiFi_spec.2.1 [false, false] (by decide),
   connectWiFi_spec.2.2 1 []⟩

/-- C4: in every loop iteration that starts disconnected, the reconnect
operation runs to completion first — all its events precede the single
`mqtt.loop()` poll, which itself precedes any heartbeat publish of that
iteration — and every completed iteration, connected or not, services the
poll exactly once. -/
theorem loop_reconnect_before_poll :
    (∀ (a : List Bool) (t last : Nat) (evs : List Event) (last' : Nat),
      loopIter false a t last = some (evs, last') →
        ∃ revs, mqttReconnect false a = some revs ∧
          evs = revs ++ Event.pollLoop :: (heartbeatStep t last).fst ∧
          (revs.filter isPoll).length = 0 ∧
          ((heartbeatStep t last).fst.filter isPoll).length = 0) ∧
    (∀ (c : Bool) (a : List Bool) (t last : Nat) (evs : List Event) (last' : Nat),
      loopIter c a t last = some (evs, last') →
        (evs.filter isPoll).length = 1) := by
  have hhb : ∀ t last : Nat,
      ((heartbeatStep t last).fst.filter isPoll).length = 0 := by
    intro t last
    by_cases h5 : 5000 < sub32 (millis t) last
    · rw [heartbeatStep_pos t last h5]; simp [List.filter, isPoll]
    · rw [heartbeatStep_neg t last h5]; simp [List.filter]
  constructor
  · intro a t last evs last' h
    obtain ⟨revs, hrec, _, hpoll, hevs, _⟩ :=
      loopIter_eq_some false a t last evs last' h
    simp only [Bool.false_eq_true, if_false] at hrec
    exact ⟨revs, hrec, hevs, hpoll, hhb t last⟩
  · intro c a t last evs last' h
    obtain ⟨revs, _, _, hpoll, hevs, _⟩ :=
      loopIter_eq_some c a t last evs last' h
    subst hevs
    simp only [List.filter_append, List.length_append, hpoll, List.filter]
    simp [isPoll, hhb t last]

/-- Witness for C4: a disconnected iteration at `t = 6000`, `last = 0` whose
reconnect succeeds at once: its events are the reconnect events, then the
single poll, then the heartbeat publish. -/
theorem loop_reconnect_before_poll_witness :
    loopIter false [true] 6000 0 =
      some (reconnectSuccessEvents ++ Event.pollLoop ::
        (heartbeatStep 6000 0).fst, 6000) ∧
    (∃ revs, mqttReconnect false [true] = some revs ∧
      reconnectSuccessEvents ++ Event.pollLoop :: (heartbeatStep 6000 0).fst =
        revs ++ Event.pollLoop :: (heartbeatStep 6000 0).fst ∧
      (revs.filter isPoll).length = 0 ∧
      ((heartbeatStep 6000 0).fst.filter isPoll).length = 0) ∧
    ((reconnectSuccessEvents ++ Event.pollLoop ::
        (heartbeatStep 6000 0).fst).filter isPoll).length = 1 :=
  ⟨by decide,
   loop_reconnect_before_poll.1 [true] 6000 0
     (reconnectSuccessEvents ++ Event.pollLoop :: (heartbeatStep 6000 0).fst) 6000
     (by decide),
   loop_reconnect_before_poll.2 false [true] 6000 0
     (reconnectSuccessEvents ++ Event.pollLoop :: (heartbeatStep 6000 0).fst) 6000
     (by decide)⟩

theorem connectWiFiPoll_mem (s : List Bool) (evs : List Event)
    (h : connectWiFiPoll s = some evs) :
    ∀ e ∈ evs, e = Event.delayMs 300 ∨ e = Event.serialPrint "." := by
  induction s generalizing evs with
  | nil => simp [connectWiFiPoll] at h
  | cons st rest ih =>
    rw [connectWiFiPoll] at h
    cases st with
    | true =>
      simp at h
      subst h
      simp
    | false =>
      simp only [Bool.false_eq_true, if_false] at h
      cases hrec : connectWiFiPoll rest with
      | none => rw [hrec] at h; exact absurd h (by simp)
      | some evs' =>
        rw [hrec] at h
        simp only [Option.some.injEq] at h
        subst h
        intro e he
        simp only [List.mem_cons] at he
        rcases he with rfl | rfl | he
        · exact Or.inl rfl
        · exact Or.inr rfl
        · exact ih evs' hrec e he

theorem connectWiFi_mem (s : List Bool) (evs : List Event)
    (h : connectWiFi s = some evs) :
    ∀ e ∈ evs, isPinOp e = false ∧ allowedPublish e = true := by
  rw [connectWiFi] at h
  cases hrec : connectWiFiPoll s with
  | none => rw [hrec] at h; exact absurd h (by simp)
  | some pevs =>
    rw [hrec] at h
    simp only [Option.some.injEq] at h
    subst h
    intro e he
    simp only [List.mem_cons, List.mem_append, List.mem_singleton,
      List.not_mem_nil, or_false] at he
    rcases he with rfl | rfl | he | rfl
    · exact ⟨rfl, rfl⟩
    · exact ⟨rfl, rfl⟩
    · rcases connectWiFiPoll_mem s pevs hrec e he with rfl | rfl
      · exact ⟨rfl, rfl⟩
      · exact ⟨rfl, rfl⟩
    · exact ⟨rfl, rfl⟩

theorem initPin_allowed (p : Option Nat) (b : Bool) :
    ∀ e ∈ initPin p b, allowedPublish e = true := by
  cases p with
  | none => simp [initPin]
  | some pin =>
    intro e he
    simp only [initPin, List.mem_cons, List.not_mem_nil, or_false] at he
    rcases he with rfl | rfl
    · rfl
    · rfl

theorem setup_allowed (cfg : PinConfig) (wifi : List Bool) (sevs : List Event)
    (h : setup cfg wifi = some sevs) : ∀ e ∈ sevs, allowedPublish e = true := by
  rw [setup] at h
  cases hw : connectWiFi wifi with
  | none => rw [hw] at h; exact absurd h (by simp)
  | some wevs =>
    rw [hw] at h
    simp only [Option.some.injEq] at h
    subst h
    refine List.forall_mem_append.mpr ⟨List.forall_mem_append.mpr
      ⟨List.forall_mem_append.mpr ⟨List.forall_mem_append.mpr
        ⟨by decide, initPin_allowed _ _⟩, initPin_allowed _ _⟩,
       fun e he => (connectWiFi_mem wifi wevs hw e he).2⟩, by decide⟩

theorem loopIter_allowed (c : Bool) (a : List Bool) (t last : Nat)
    (evs : List Event) (last' : Nat) (h : loopIter c a t last = some (evs, last')) :
    ∀ e ∈ evs, allowedPublish e = true := by
  obtain ⟨revs, hrec, _, _, hevs, _⟩ := loopIter_eq_some c a t last evs last' h
  subst hevs
  refine List.forall_mem_append.mpr ⟨?_, ?_⟩
  · cases c with
    | true => simp at hrec; subst hrec; simp
    | false =>
      simp only [Bool.false_eq_true, if_false] at hrec
      exact (mqttReconnect_events false a revs hrec).2.2.1
  · intro e he
    simp only [List.mem_cons] at he
    rcases he with rfl | he
    · rfl
    · by_cases h5 : 5000 < sub32 (millis t) last
      · rw [heartbeatStep_pos t last h5] at he
        simp only [List.mem_singleton] at he
        subst he
        decide
      · rw [heartbeatStep_neg t last h5] at he
        simp at he

theorem runLoop_allowed (inputs : List IterInput) (last : Nat) (evs : List Event)
    (last' : Nat) (h : runLoop last inputs = some (evs, last')) :
    ∀ e ∈ evs, allowedPublish e = true := by
  induction inputs generalizing last evs last' with
  | nil =>
    rw [runLoop] at h
    simp only [Option.some.injEq, Prod.mk.injEq] at h
    obtain ⟨hevs, _⟩ := h
    subst hevs
    simp
  | cons i rest ih =>
    rw [runLoop] at h
    cases h1 : loopIter i.connected i.attempts i.t last with
    | none => rw [h1] at h; simp at h
    | some p =>
      obtain ⟨evs1, last1⟩ := p
      rw [h1] at h
      dsimp only at h
      cases h2 : runLoop last1 rest with
      | none => rw [h2] at h; simp at h
      | some q =>
        obtain ⟨evs2, last2⟩ := q
        rw [h2] at h
        dsimp only at h
        simp only [Option.some.injEq, Prod.mk.injEq] at h
        obtain ⟨hevs, _⟩ := h
        subst hevs
        exact List.forall_mem_append.mpr
          ⟨loopIter_allowed _ _ _ _ _ _ h1, ih last1 evs2 last2 h2⟩

theorem runLoop_hb (inputs : List IterInput) (last : Nat) (evs : List Event)
    (last' : Nat) (h : runLoop last inputs = some (evs, last')) :
    last' = (hbRun last (List.map IterInput.t inputs)).snd ∧
    countTopic "pinpilot/heartbeat" evs =
      (hbRun last (List.map IterInput.t inputs)).fst.length := by
  induction inputs generalizing last evs last' with
  | nil =>
    rw [runLoop] at h
    simp only [Option.some.injEq, Prod.mk.injEq] at h
    obtain ⟨hevs, hlast⟩ := h
    subst hevs
    subst hlast
    simp [hbRun, countTopic]
  | cons i rest ih =>
    rw [runLoop] at h
    cases h1 : loopIter i.connected i.attempts i.t last with
    | none => rw [h1] at h; simp at h
    | some p =>
      obtain ⟨evs1, last1⟩ := p
      rw [h1] at h
      dsimp only at h
      cases h2 : runLoop last1 rest with
      | none => rw [h2] at h; simp at h
      | some q =>
        obtain ⟨evs2, last2⟩ := q
        rw [h2] at h
        dsimp only at h
        simp only [Option.some.injEq, Prod.mk.injEq] at h
        obtain ⟨hevs, hlast⟩ := h
        subst hevs
        subst hlast
        obtain ⟨revs, _, hcnt0, _, hevs1, hlast1⟩ :=
          loopIter_eq_some i.connected i.attempts i.t last evs1 last1 h1
        subst hevs1
        simp only [List.map_cons]
        by_cases h5 : 5000 < sub32 (millis i.t) last
        · rw [heartbeatStep_pos i.t last h5] at hlast1
          dsimp only at hlast1
          subst hlast1
          obtain ⟨ihl, ihc⟩ := ih (millis i.t) evs2 last2 h2
          rw [hbRun, heartbeatStep_pos i.t last h5]
          dsimp only
          rcases hq : hbRun (millis i.t) (List.map IterInput.t rest) with ⟨ts, l3⟩
          rw [hq] at ihl ihc
          dsimp only at ihl ihc ⊢
          refine ⟨ihl, ?_⟩
          rw [countTopic_append, countTopic_append, hcnt0, ihc]
          simp [countTopic, isPublishTo, List.filter]
          omega
        · rw [heartbeatStep_neg i.t last h5] at hlast1
          dsimp only at hlast1
          obtain ⟨ihl, ihc⟩ := ih last1 evs2 last2 h2
          rw [hlast1] at ihl ihc
          rw [hbRun, heartbeatStep_neg i.t last h5]
          dsimp only
          rcases hq : hbRun last (List.map IterInput.t rest) with ⟨ts, l3⟩
          rw [hq] at ihl ihc
          dsimp only at ihl ihc ⊢
          refine ⟨ihl, ?_⟩
          rw [countTopic_append, countTopic_append, hcnt0, ihc]
          simp [countTopic, isPublishTo, List.filter]

theorem hbRun_chain (times : List Nat) (t0 : Nat)
    (hp : times.Pairwise (· ≤ ·)) (hge : ∀ t ∈ times, t0 ≤ t) :
    List.Chain' (fun a b => 5000 < b - a) (t0 :: (hbRun (millis t0) times).fst) := by
  induction times generalizing t0 with
  | nil => simp [hbRun]
  | cons t rest ih =>
    obtain ⟨hts, hp'⟩ := List.pairwise_cons.mp hp
    have ht0t : t0 ≤ t := hge t (List.mem_cons_self t rest)
    by_cases h5 : 5000 < sub32 (millis t) (millis t0)
    · have hsep := elapsed_gt_of_sub32_gt t0 t ht0t h5
      have hih := ih t hp' hts
      rw [hbRun, heartbeatStep_pos t (millis t0) h5]
      dsimp only
      rcases hq : hbRun (millis t) rest with ⟨ts, l3⟩
      rw [hq] at hih
      simp only [List.isEmpty_cons, Bool.false_eq_true, if_false, List.singleton_append]
      exact List.chain'_cons.mpr ⟨hsep, by simpa using hih⟩
    · have hih := ih t0 hp' (fun x hx => hge x (List.mem_cons_of_mem t hx))
      rw [hbRun, heartbeatStep_neg t (millis t0) h5]
      dsimp only
      rcases hq : hbRun (millis t0) rest with ⟨ts, l3⟩
      rw [hq] at hih
      simpa using hih

/-- C9: during initialization, an undefined optional pin makes its
`#ifdef`-guarded configuration step vanish: it contributes no events, can
raise no error (setup fails only when WiFi never associates, independently of
the pin configuration), and the rest of setup is unchanged; with both
optional pins undefined, setup performs no pin operation at all. -/
theorem setup_skips_undefined_pins :
    (∀ b : Bool, initPin none b = []) ∧
    (∀ (w : Option Nat) (wifi : List Bool) (wevs : List Event),
      connectWiFi wifi = some wevs →
        setup ⟨none, w⟩ wifi =
          some ([Event.serialBegin 115200, Event.delayMs 200]
            ++ initPin w false ++ wevs ++ [Event.setServer MQTT_HOST MQTT_PORT])) ∧
    (∀ (p : Option Nat) (wifi : List Bool) (wevs : List Event),
      connectWiFi wifi = some wevs →
        setup ⟨p, none⟩ wifi =
          some ([Event.serialBegin 115200, Event.delayMs 200]
            ++ initPin p true ++ wevs ++ [Event.setServer MQTT_HOST MQTT_PORT])) ∧
    (∀ (cfg cfg' : PinConfig) (wifi : List Bool),
      (setup cfg wifi).isSome = (setup cfg' wifi).isSome) ∧
    (∀ (wifi : List Bool) (evs : List Event),
      setup ⟨none, none⟩ wifi = some evs → evs.filter isPinOp = []) := by
  refine ⟨fun b => rfl, ?_, ?_, ?_, ?_⟩
  · intro w wifi wevs hw
    rw [setup, hw]
    simp [initPin]
  · intro p wifi wevs hw
    rw [setup, hw]
    simp [initPin]
  · intro cfg cfg' wifi
    cases hw : connectWiFi wifi <;> simp [setup, hw]
  · intro wifi evs h
    rw [setup] at h
    cases hw : connectWiFi wifi with
    | none => rw [hw] at h; exact absurd h (by simp)
    | some wevs =>
      rw [hw] at h
      simp only [Option.some.injEq] at h
      subst h
      apply List.filter_eq_nil_iff.mpr
      intro e he
      simp only [initPin, List.append_nil, List.nil_append, List.mem_append,
        List.mem_cons, List.not_mem_nil, or_false] at he
      rcases he with ((rfl | rfl) | he) | rfl
      · decide
      · decide
      · simp [(connectWiFi_mem wifi wevs hw e he).1]
      · decide

/-- Witness for C9 with `wifi = [true]` (association succeeds at the first
poll): the undefined-pin step is skipped while the defined pin and all other
steps are unchanged, setup succeeds regardless of the pin configuration, and
with both pins undefined no pin operation is performed. -/
theorem setup_skips_undefined_pins_witness :
    initPin none true = [] ∧
    (connectWiFi [true] = some [Event.wifiModeSTA,
        Event.wifiBegin WIFI_SSID WIFI_PASS, Event.serialPrintln "\nWiFi connected"] ∧
      setup ⟨none, some 7⟩ [true] =
        some ([Event.serialBegin 115200, Event.delayMs 200]
          ++ initPin (some 7) false
          ++ [Event.wifiModeSTA, Event.wifiBegin WIFI_SSID WIFI_PASS,
              Event.serialPrintln "\nWiFi connected"]
          ++ [Event.setServer MQTT_HOST MQTT_PORT])) ∧
    setup ⟨some 9, none⟩ [true] =
      some ([Event.serialBegin 115200, Event.delayMs 200]
        ++ initPin (some 9) true
        ++ [Event.wifiModeSTA, Event.wifiBegin WIFI_SSID WIFI_PASS,
            Event.serialPrintln "\nWiFi connected"]
        ++ [Event.setServer MQTT_HOST MQTT_PORT]) ∧
    (setup ⟨none, none⟩ [true]).isSome = (setup ⟨some 9, some 7⟩ [true]).isSome ∧
    (setup ⟨none, none⟩ [true] =
        some [Event.serialBegin 115200, Event.delayMs 200, Event.wifiModeSTA,
          Event.wifiBegin WIFI_SSID WIFI_PASS, Event.serialPrintln "\nWiFi connected",
          Event.setServer MQTT_HOST MQTT_PORT] ∧
      List.filter isPinOp [Event.serialBegin 115200, Event.delayMs 200,
        Event.wifiModeSTA, Event.wifiBegin WIFI_SSID WIFI_PASS,
        Event.serialPrintln "\nWiFi connected",
        Event.setServer MQTT_HOST MQTT_PORT] = []) :=
  ⟨setup_skips_undefined_pins.1 true,
   ⟨by decide, setup_skips_undefined_pins.2.1 (some 7) [true]
      [Event.wifiModeSTA, Event.wifiBegin WIFI_SSID WIFI_PASS,
       Event.serialPrintln "\nWiFi connected"] (by decide)⟩,
   setup_skips_undefined_pins.2.2.1 (some 9) [true]
     [Event.wifiModeSTA, Event.wifiBegin WIFI_SSID WIFI_PASS,
      Event.serialPrintln "\nWiFi connected"] (by decide),
   setup_skips_undefined_pins.2.2.2.1 ⟨none, none⟩ ⟨some 9, some 7⟩ [true],
   by decide,
   setup_skips_undefined_pins.2.2.2.2 [true]
     [Event.serialBegin 115200, Event.delayMs 200, Event.wifiModeSTA,
      Event.wifiBegin WIFI_SSID WIFI_PASS, Event.serialPrintln "\nWiFi connected",
      Event.setServer MQTT_HOST MQTT_PORT] (by decide)⟩

/-- C6: every message the program publishes — during setup and during any
run of loop iterations — is to one of exactly two topics with fixed payloads,
`pinpilot/status` with `"online"` or `pinpilot/heartbeat` with the device
identifier; and each completed reconnect publishes the status message exactly
once per successful connect attempt. -/
theorem publishes_limited_to_two_topics :
    (∀ (cfg : PinConfig) (wifi : List Bool) (sevs : List Event),
      setup cfg wifi = some sevs → ∀ e ∈ sevs, allowedPublish e = true) ∧
    (∀ (last : Nat) (inputs : List IterInput) (evs : List Event) (last' : Nat),
      runLoop last inputs = some (evs, last') →
        ∀ e ∈ evs, allowedPublish e = true) ∧
    (∀ (c : Bool) (a : List Bool) (evs : List Event),
      mqttReconnect c a = some evs →
        countTopic "pinpilot/status" evs =
          (evs.filter isSuccessfulConnect).length) :=
  ⟨setup_allowed,
   fun last inputs evs last' h => runLoop_allowed inputs last evs last' h,
   fun c a evs h => (mqttReconnect_events c a evs h).2.2.2⟩

/-- Witness for C6: a concrete setup, a one-iteration run that publishes a
heartbeat, and a one-attempt reconnect that publishes one status message. -/
theorem publishes_limited_to_two_topics_witness :
    (setup ⟨none, none⟩ [true] =
        some [Event.serialBegin 115200, Event.delayMs 200, Event.wifiModeSTA,
          Event.wifiBegin WIFI_SSID WIFI_PASS, Event.serialPrintln "\nWiFi connected",
          Event.setServer MQTT_HOST MQTT_PORT] ∧
      ∀ e ∈ ([Event.serialBegin 115200, Event.delayMs 200, Event.wifiModeSTA,
          Event.wifiBegin WIFI_SSID WIFI_PASS, Event.serialPrintln "\nWiFi connected",
          Event.setServer MQTT_HOST MQTT_PORT] : List Event),
        allowedPublish e = true) ∧
    (runLoop 0 [⟨true, [], 6000⟩] =
        some ([Event.pollLoop, Event.publish "pinpilot/heartbeat" DEVICE_NAME], 6000) ∧
      ∀ e ∈ ([Event.pollLoop,
          Event.publish "pinpilot/heartbeat" DEVICE_NAME] : List Event),
        allowedPublish e = true) ∧
    (mqttReconnect false [true] = some reconnectSuccessEvents ∧
      countTopic "pinpilot/status" reconnectSuccessEvents =
        (reconnectSuccessEvents.filter isSuccessfulConnect).length) :=
  ⟨⟨by decide, publishes_limited_to_two_topics.1 ⟨none, none⟩ [true]
      [Event.serialBegin 115200, Event.delayMs 200, Event.wifiModeSTA,
       Event.wifiBegin WIFI_SSID WIFI_PASS, Event.serialPrintln "\nWiFi connected",
       Event.setServer MQTT_HOST MQTT_PORT] (by decide)⟩,
   ⟨by decide, publishes_limited_to_two_topics.2.1 0 [⟨true, [], 6000⟩]
      [Event.pollLoop, Event.publish "pinpilot/heartbeat" DEVICE_NAME] 6000 (by decide)⟩,
   ⟨by decide, publishes_limited_to_two_topics.2.2 false [true]
      reconnectSuccessEvents (by decide)⟩⟩

/-- C3: the heartbeat timestamp evolves exactly as `heartbeatStep` dictates
(`hbRun` abstracts any run: the final timestamp and the number of heartbeat
publishes match), and on any run whose iteration times are nondecreasing and
start from the initial timestamp 0, consecutive heartbeat publish times are
always separated by strictly more than 5000 ms — never by less than the
threshold. -/
theorem heartbeat_min_separation :
    (∀ (inputs : List IterInput) (last : Nat) (evs : List Event) (last' : Nat),
      runLoop last inputs = some (evs, last') →
        last' = (hbRun last (List.map IterInput.t inputs)).snd ∧
        countTopic "pinpilot/heartbeat" evs =
          (hbRun last (List.map IterInput.t inputs)).fst.length) ∧
    (∀ times : List Nat, times.Pairwise (· ≤ ·) →
      List.Chain' (fun a b => 5000 < b - a) (hbRun 0 times).fst) := by
  refine ⟨runLoop_hb, ?_⟩
  intro times hp
  have h := hbRun_chain times 0 hp (fun t _ => Nat.zero_le t)
  rw [show millis 0 = 0 from by decide] at h
  exact h.tail

/-- Witness for C3: a one-iteration run publishing one heartbeat, and the
publish times of the time trace `[6000, 7000, 13000]` (namely `[6000, 13000]`)
are separated by more than 5000 ms. -/
theorem heartbeat_min_separation_witness :
    (runLoop 0 [⟨true, [], 6000⟩] =
        some ([Event.pollLoop, Event.publish "pinpilot/heartbeat" DEVICE_NAME], 6000) ∧
      ((6000 : Nat) = (hbRun 0 (List.map IterInput.t [⟨true, [], 6000⟩])).snd ∧
        countTopic "pinpilot/heartbeat"
            [Event.pollLoop, Event.publish "pinpilot/heartbeat" DEVICE_NAME] =
          (hbRun 0 (List.map IterInput.t [⟨true, [], 6000⟩])).fst.length)) ∧
    List.Pairwise (· ≤ ·) [6000, 7000, 13000] ∧
    List.Chain' (fun a b => 5000 < b - a) (hbRun 0 [6000, 7000, 13000]).fst :=
  ⟨⟨by decide,
    heartbeat_min_separation.1 [⟨true, [], 6000⟩] 0
      [Event.pollLoop, Event.publish "pinpilot/heartbeat" DEVICE_NAME] 6000 (by decide)⟩,
   by decide,
   heartbeat_min_separation.2 [6000, 7000, 13000] (by decide)⟩

